import Mathlib

/-!
Shallow embedding of `press/press/doctype/razorpay_payment_record/razorpay_payment_record.py`
and `press/press/doctype/serial_console_log/serial_console_log.py`.

Monetary values are embedded as rationals: the Python code computes
`payment["amount"] / 100` and subtracts the `gst` note; every claim checked
here concerns the exact algebraic relationship between the computed values
(the same Python value is assigned to several invoice fields), which is
independent of the concrete numeric representation. Timestamps are embedded
as integers (epoch seconds). Fallible external calls (the Razorpay gateway)
are embedded as `Except`-valued parameters; the frappe document store is
explicit state.
-/

namespace Press

/-- Status field of a Razorpay Payment Record
(`DF.Literal ["Captured", "Failed", "Pending"]`). -/
inductive PRStatus where
  | Captured
  | Failed
  | Pending
deriving DecidableEq, Repr

/-- Type field of a Razorpay Payment Record
(`DF.Literal ["Prepaid Credits", "Partnership Fee"]`). -/
inductive PRType where
  | PrepaidCredits
  | PartnershipFee
deriving DecidableEq, Repr

/-- A Razorpay Payment Record document (the fields used by the embedded code).
`creation` is the frappe-managed creation timestamp, in epoch seconds. -/
structure RazorpayPaymentRecord where
  name : String
  orderId : String
  paymentId : String
  status : PRStatus
  prType : PRType
  team : String
  creation : ℤ
deriving DecidableEq, Repr

/-- The payment object returned by `client.payment.fetch(payment_id)`:
`amount` is the gross amount in integer minor units (cents), `gstNote` is the
optional `notes.gst` value (already numeric; `float(...)` applied in the
source), `createdAt` the gateway `created_at` epoch timestamp. -/
structure Payment where
  amount : ℤ
  gstNote : Option ℚ
  createdAt : ℤ
  method : String
deriving DecidableEq, Repr

/-- `float(payment["notes"].get("gst", 0))`: the gst note, defaulting to 0. -/
def gstOf (p : Payment) : ℚ :=
  p.gstNote.getD 0

/-- `amount_with_tax = payment["amount"] / 100`. -/
def amountWithTax (p : Payment) : ℚ :=
  (p.amount : ℚ) / 100

/-- `amount = amount_with_tax - gst`. -/
def netAmount (p : Payment) : ℚ :=
  amountWithTax p - gstOf p

/-- The balance transaction produced by `team.allocate_credit_amount`.
`btType` is the optional `type=` keyword argument (passed only by the
partnership-fee branch). -/
structure BalanceTransaction where
  amount : ℚ
  source : String
  remark : String
  btType : Option String
deriving DecidableEq, Repr

/-- A line item appended to the invoice. -/
structure InvoiceItem where
  description : String
  document_type : String
  document_name : String
  quantity : ℤ
  rate : ℚ
deriving DecidableEq, Repr

/-- The Invoice document built by the capture handlers (the fields assigned
in the source). `submitted` records that `invoice.submit()` was called. -/
structure Invoice where
  team : String
  invType : String
  status : String
  due_date : ℤ
  total : ℚ
  amount_due : ℚ
  gst : ℚ
  amount_due_with_tax : ℚ
  amount_paid : ℚ
  razorpay_order_id : String
  razorpay_payment_record : String
  razorpay_payment_method : String
  items : List InvoiceItem
  submitted : Bool
deriving DecidableEq, Repr

/-- The observable side effects of one capture handler run: the balance
transactions created via `allocate_credit_amount`, the invoices inserted and
submitted, and the background tasks enqueued. -/
structure CaptureEffects where
  allocations : List BalanceTransaction
  invoices : List Invoice
  enqueued : List String
deriving DecidableEq, Repr

/-- `RazorpayPaymentRecord.process_prepaid_credits`, as a function from the
record and the fetched payment to the effects it performs. Mirrors the
source line by line: one `allocate_credit_amount` call (no `type=` keyword),
one invoice of type "Prepaid Credits" with one line item, and one enqueue of
the unpaid-invoice finalization for the team. The balance-transaction name
embedded in the line item is abstracted as the remark string. In the source
`gst=gst or 0` equals `gst` whenever `gst` is numeric (falsy `0.0` maps to
`0`, the same value). -/
def process_prepaid_credits (r : RazorpayPaymentRecord) (p : Payment) : CaptureEffects :=
  let amount_with_tax := amountWithTax p
  let gst := gstOf p
  let amount := amount_with_tax - gst
  let balance_transaction : BalanceTransaction :=
    { amount := amount
      source := "Prepaid Credits"
      remark := "Razorpay: " ++ r.paymentId
      btType := none }
  let invoice : Invoice :=
    { team := r.team
      invType := "Prepaid Credits"
      status := "Paid"
      due_date := p.createdAt
      total := amount
      amount_due := amount
      gst := gst
      amount_due_with_tax := amount_with_tax
      amount_paid := amount_with_tax
      razorpay_order_id := r.orderId
      razorpay_payment_record := r.name
      razorpay_payment_method := p.method
      items := [{ description := "Prepaid Credits"
                  document_type := "Balance Transaction"
                  document_name := balance_transaction.remark
                  quantity := 1
                  rate := amount }]
      submitted := true }
  { allocations := [balance_transaction]
    invoices := [invoice]
    enqueued := ["_enqueue_finalize_unpaid_invoices_for_team " ++ r.team] }

/-- `RazorpayPaymentRecord.process_partnership_fee`: the same computation as
the prepaid-credits branch, but `allocate_credit_amount` is called with
`type="Partnership Fee"`, the invoice type is "Partnership Fees", the line
item description is "Partnership Fee", and nothing is enqueued. -/
def process_partnership_fee (r : RazorpayPaymentRecord) (p : Payment) : CaptureEffects :=
  let amount_with_tax := amountWithTax p
  let gst := gstOf p
  let amount := amount_with_tax - gst
  let balance_transaction : BalanceTransaction :=
    { amount := amount
      source := "Prepaid Credits"
      remark := "Razorpay: " ++ r.paymentId
      btType := some "Partnership Fee" }
  let invoice : Invoice :=
    { team := r.team
      invType := "Partnership Fees"
      status := "Paid"
      due_date := p.createdAt
      total := amount
      amount_due := amount
      gst := gst
      amount_due_with_tax := amount_with_tax
      amount_paid := amount_with_tax
      razorpay_order_id := r.orderId
      razorpay_payment_record := r.name
      razorpay_payment_method := p.method
      items := [{ description := "Partnership Fee"
                  document_type := "Balance Transaction"
                  document_name := balance_transaction.remark
                  quantity := 1
                  rate := amount }]
      submitted := true }
  { allocations := [balance_transaction]
    invoices := [invoice]
    enqueued := [] }

/-- `RazorpayPaymentRecord.on_update`: when the status field changed and the
new status is Captured, dispatch on the record type. -/
def on_update (statusChanged : Bool) (r : RazorpayPaymentRecord) (p : Payment) :
    Option CaptureEffects :=
  if statusChanged ∧ r.status = PRStatus.Captured then
    match r.prType with
    | PRType.PrepaidCredits => some (process_prepaid_credits r p)
    | PRType.PartnershipFee => some (process_partnership_fee r p)
  else
    none

/-- One element of `client.order.payments(order_id)["items"]` (the fields the
embedded code reads: `id`, `order_id`, `status`). -/
structure PaymentItem where
  id : String
  order_id : String
  status : String
deriving DecidableEq, Repr

/-- The response of `client.order.payments(order_id)`: `response.get("items")`
returns `None` when the key is absent, which makes the subsequent `for` loop
raise; hence an `Option`. -/
structure OrderPaymentsResponse where
  items : Option (List PaymentItem)
deriving DecidableEq, Repr

/-- A Razorpay Webhook Log document as built by `sync` and the sweep:
`name` is the gateway order id (the deduplication key), `payment_id` the
item id, `event` is `"order.paid"`, and the payload is the serialized item. -/
structure WebhookLog where
  name : String
  payment_id : String
  event : String
  payloadItem : PaymentItem
deriving DecidableEq, Repr

/-- The webhook-log document built from one captured payment item. -/
def mkWebhookLog (item : PaymentItem) : WebhookLog :=
  { name := item.order_id
    payment_id := item.id
    event := "order.paid"
    payloadItem := item }

/-- Whether the store already holds a document with the given name. -/
def hasName (store : List WebhookLog) (n : String) : Bool :=
  store.any (fun w => w.name = n)

/-- Number of stored webhook-log documents with the given name. -/
def countName (store : List WebhookLog) (n : String) : Nat :=
  (store.filter (fun w => w.name = n)).length

/-- Models frappe `Document.insert(ignore_if_duplicate=True)` as called on the
webhook log: a no-op when a document with the same name (here the gateway
order id) already exists, otherwise the document is stored. -/
def insertIgnoreDuplicate (store : List WebhookLog) (w : WebhookLog) : List WebhookLog :=
  if hasName store w.name then store else store ++ [w]

/-- The shared loop body of `sync` and the sweep: for every item of the
response whose status is "captured", insert a deduplicated webhook log. -/
def insertCapturedItems (store : List WebhookLog) (items : List PaymentItem) : List WebhookLog :=
  items.foldl
    (fun st item =>
      if item.status = "captured" then insertIgnoreDuplicate st (mkWebhookLog item) else st)
    store

/-- An entry written to the error-log sink by `log_error(title, order_id=...)`.
The spec lists the error sink separately from the persisted records
(PaymentRecord, Invoice, WebhookLogEntry), so it is kept outside `DB`. -/
structure ErrorLog where
  title : String
  order_id : String
deriving DecidableEq, Repr

/-- The error log written by `sync` when its try block raises. -/
def syncErrLog (oid : String) : ErrorLog :=
  { title := "Failed to sync Razorpay Payment Record", order_id := oid }

/-- The error log written by the sweep when one order's processing raises. -/
def captureErrLog (oid : String) : ErrorLog :=
  { title := "Failed to capture pending order", order_id := oid }

/-- The persistent document store touched by the payment flows. -/
structure DB where
  paymentRecords : List RazorpayPaymentRecord
  invoices : List Invoice
  webhookLogs : List WebhookLog
deriving DecidableEq, Repr

/-- The gateway call `client.order.payments`: either a response or a raised
exception (network or gateway failure). -/
abbrev Gateway := String → Except String OrderPaymentsResponse

/-- The body shared by `sync`'s try block and the sweep's per-order try block:
fetch the order's payments and insert a webhook log for every captured item.
An `Except.error` models a raised exception: the gateway call failing, or the
`for` loop iterating over `None` when the response has no "items" key. -/
def fetchAndLogCaptured (gw : Gateway) (orderId : String) (store : List WebhookLog) :
    Except String (List WebhookLog) :=
  match gw orderId with
  | Except.error e => Except.error e
  | Except.ok response =>
    match response.items with
    | none => Except.error "TypeError: NoneType object is not iterable"
    | some items => Except.ok (insertCapturedItems store items)

/-- `RazorpayPaymentRecord.sync`: the whole body is wrapped in try/except, so
any exception is converted into an error-log entry carrying the record's
order id and the operation returns normally. The outer `Except` models
"raises to the caller". -/
def sync (gw : Gateway) (r : RazorpayPaymentRecord) (db : DB) :
    Except String (DB × List ErrorLog) :=
  match fetchAndLogCaptured gw r.orderId db.webhookLogs with
  | Except.ok store => Except.ok ({ db with webhookLogs := store }, [])
  | Except.error _ => Except.ok (db, [syncErrLog r.orderId])

/-- The default value of the sweep's `hours` parameter. -/
def hoursDefault : ℤ := 12

/-- The sweep's selection filter, from
`dict(status="Pending", creation=(">=", past_12hrs_ago))` with
`past_12hrs_ago = datetime.now() - timedelta(hours=hours)`: status Pending
and creation at or after `now - hours` (times in epoch seconds). -/
def inPendingWindow (now hours : ℤ) (r : RazorpayPaymentRecord) : Bool :=
  (r.status == PRStatus.Pending) && decide (now - hours * 3600 ≤ r.creation)

/-- `frappe.get_all("Razorpay Payment Record", filters, pluck="order_id")`:
the order ids of the records matching the sweep's filter. -/
def pendingOrderIds (db : DB) (now hours : ℤ) : List String :=
  (db.paymentRecords.filter (inPendingWindow now hours)).map (fun r => r.orderId)

/-- State threaded through the sweep loop: the webhook-log store and the
error-log sink. -/
abbrev SweepState := List WebhookLog × List ErrorLog

/-- One iteration of the sweep loop: try the order; on an exception, log an
error for that order and continue with the store unchanged. -/
def sweepStep (gw : Gateway) (s : SweepState) (orderId : String) : SweepState :=
  match fetchAndLogCaptured gw orderId s.1 with
  | Except.ok store => (store, s.2)
  | Except.error _ => (s.1, s.2 ++ [captureErrLog orderId])

/-- The sweep loop over a list of order ids. -/
def sweepOrders (gw : Gateway) (orders : List String) (s : SweepState) : SweepState :=
  orders.foldl (sweepStep gw) s

/-- `fetch_pending_payment_orders(hours=12)`: select the pending orders in
the window, then run the loop. The source's early `return` on an empty
selection coincides with folding over the empty list. -/
def fetch_pending_payment_orders (gw : Gateway) (db : DB) (now hours : ℤ) :
    DB × List ErrorLog :=
  let pending := pendingOrderIds db now hours
  let s := sweepOrders gw pending (db.webhookLogs, [])
  ({ db with webhookLogs := s.1 }, s.2)

/-- Which expected texts appear in the serial-console stream within their
wait bounds, for one `_run_reboot` session: the initial "login:"/"Password:"
prompt, the "sysrq: HELP" banner within its 1s wait, the "sysrq: Resetting"
banner within its 1s wait, and "login:" within the final 300s wait. -/
structure ConsoleTrace where
  initialPrompt : Bool
  helpBanner : Bool
  resetBanner : Bool
  finalLogin : Bool
deriving DecidableEq, Repr

/-- Rendering of an `expect` whose pattern list contains `pexpect.TIMEOUT`:
the call returns normally in both cases, recording which pattern matched. -/
def bannerOutcome (found : Bool) (txt : String) : String :=
  "expect " ++ txt ++ (if found then " matched" else " timeout")

/-- The actions performed between the initial prompt and the final wait: they
do not depend on whether the banners appeared, only the recorded outcomes
differ. -/
def sysrqSequence (help reset : Bool) : List String :=
  ["send ~B", "send h", bannerOutcome help "sysrq: HELP",
   "sendline", "send ~B", "send b", bannerOutcome reset "sysrq: Resetting"]

/-- `SerialConsoleLog._run_reboot` as a function of the console trace,
returning the list of session actions performed, or the exception raised.
The first `expect(["login:", "Password:"])` raises when neither text appears;
the two banner waits have `pexpect.TIMEOUT` in their pattern list and return
normally either way; the final `expect("login:", timeout=300)` raises on
timeout. Fixed `time.sleep` delays are not modelled (no effect on the
stream). -/
def runRebootScript (t : ConsoleTrace) : Except String (List String) :=
  let opening := ["spawn", "sendline", "expect login:|Password:"]
  if t.initialPrompt = false then
    Except.error "pexpect: login:/Password: not seen"
  else if t.finalLogin = false then
    Except.error "pexpect TIMEOUT: login: not seen within 300s"
  else
    Except.ok (opening ++ sysrqSequence t.helpBanner t.resetBanner ++ ["expect login: matched"])

/-- Whether processing one order raises: the gateway call fails, or the
response has no "items" list. -/
def orderFails (gw : Gateway) (oid : String) : Bool :=
  match gw oid with
  | Except.error _ => true
  | Except.ok resp => resp.items.isNone

/-! Concrete documents and gateways used to instantiate the theorems. -/

/-- A concrete payment record (field values from the sample response quoted
in the source). -/
def exampleRecord : RazorpayPaymentRecord :=
  { name := "RPR-0001"
    orderId := "order_DaaS6LOUAASb7Y"
    paymentId := "pay_JhOBNkFZFi0EOX"
    status := PRStatus.Captured
    prType := PRType.PrepaidCredits
    team := "team@example.com"
    creation := 1655212834 }

/-- The payment of the spec's worked example: gross 10000 cents, gst note 18. -/
def examplePayment : Payment :=
  { amount := 10000, gstNote := some 18, createdAt := 1655212834, method := "card" }

/-- A payment whose gst note exceeds the gross amount in major units:
100 cents gross with an 18-unit gst note. -/
def overTaxedPayment : Payment :=
  { amount := 100, gstNote := some 18, createdAt := 0, method := "card" }

/-- A concrete captured payment item. -/
def sampleItem : PaymentItem :=
  { id := "pay_JhOBNkFZFi0EOX", order_id := "order_DaaS6LOUAASb7Y", status := "captured" }

/-- A pending record created at the reference instant itself. -/
def lateRecord : RazorpayPaymentRecord :=
  { name := "RPR-LATE"
    orderId := "order_late"
    paymentId := "pay_late"
    status := PRStatus.Pending
    prType := PRType.PrepaidCredits
    team := "t"
    creation := 1000000 }

/-- A pending record created well before the 12-hour window. -/
def oldRecord : RazorpayPaymentRecord :=
  { name := "RPR-OLD"
    orderId := "order_old"
    paymentId := "pay_old"
    status := PRStatus.Pending
    prType := PRType.PrepaidCredits
    team := "t"
    creation := 100 }

/-- A store holding the recent pending record only. -/
def lateDB : DB :=
  { paymentRecords := [lateRecord], invoices := [], webhookLogs := [] }

/-- A store holding one in-window pending record and one out-of-window one. -/
def windowDB : DB :=
  { paymentRecords := [lateRecord, oldRecord], invoices := [], webhookLogs := [] }

/-- A gateway on which every call raises. -/
def failingGw : Gateway :=
  fun _ => Except.error "ConnectionError"

/-- A gateway failing on one specific order and succeeding elsewhere. -/
def flakyGw : Gateway :=
  fun oid =>
    if oid = "order_bad" then Except.error "ConnectionError"
    else Except.ok { items := some [sampleItem] }

/-! Helper lemmas shared by the claim theorems. -/

/-- `insertIgnoreDuplicate` only ever appends to the store. -/
lemma insertIgnoreDuplicate_extends (store : List WebhookLog) (w : WebhookLog) :
    ∃ t, insertIgnoreDuplicate store w = store ++ t := by
  unfold insertIgnoreDuplicate
  split
  · exact ⟨[], by simp⟩
  · exact ⟨[w], rfl⟩

/-- `insertCapturedItems` only ever appends to the store. -/
lemma insertCapturedItems_extends (items : List PaymentItem) (store : List WebhookLog) :
    ∃ t, insertCapturedItems store items = store ++ t := by
  induction items generalizing store with
  | nil => exact ⟨[], by simp [insertCapturedItems]⟩
  | cons item rest ih =>
    simp only [insertCapturedItems, List.foldl_cons]
    by_cases h : item.status = "captured"
    · simp only [h, if_pos rfl]
      obtain ⟨t₁, ht₁⟩ := insertIgnoreDuplicate_extends store (mkWebhookLog item)
      obtain ⟨t₂, ht₂⟩ := ih (insertIgnoreDuplicate store (mkWebhookLog item))
      exact ⟨t₁ ++ t₂, by simpa [ht₁, List.append_assoc] using ht₂⟩
    · simp only [if_neg h]
      exact ih store

/-- Equation: `fetchAndLogCaptured` propagates a gateway failure. -/
lemma fetchAndLogCaptured_gw_err (gw : Gateway) (oid : String)
    (store : List WebhookLog) (e : String) (h : gw oid = Except.error e) :
    fetchAndLogCaptured gw oid store = Except.error e := by
  unfold fetchAndLogCaptured
  rw [h]

/-- Equation: a response without an "items" list makes the loop raise. -/
lemma fetchAndLogCaptured_no_items (gw : Gateway) (oid : String)
    (store : List WebhookLog) (resp : OrderPaymentsResponse)
    (h₁ : gw oid = Except.ok resp) (h₂ : resp.items = none) :
    fetchAndLogCaptured gw oid store
      = Except.error "TypeError: NoneType object is not iterable" := by
  unfold fetchAndLogCaptured
  rw [h₁]
  simp [h₂]

/-- Equation: with an "items" list present, every captured item is logged. -/
lemma fetchAndLogCaptured_items (gw : Gateway) (oid : String)
    (store : List WebhookLog) (resp : OrderPaymentsResponse)
    (items : List PaymentItem)
    (h₁ : gw oid = Except.ok resp) (h₂ : resp.items = some items) :
    fetchAndLogCaptured gw oid store = Except.ok (insertCapturedItems store items) := by
  unfold fetchAndLogCaptured
  rw [h₁]
  simp [h₂]

/-- A successful `fetchAndLogCaptured` only ever appends to the store. -/
lemma fetchAndLogCaptured_ok_extends (gw : Gateway) (oid : String)
    (store store' : List WebhookLog)
    (h : fetchAndLogCaptured gw oid store = Except.ok store') :
    ∃ t, store' = store ++ t := by
  cases hgw : gw oid with
  | error e =>
    rw [fetchAndLogCaptured_gw_err gw oid store e hgw] at h
    exact absurd h (by simp)
  | ok resp =>
    cases hit : resp.items with
    | none =>
      rw [fetchAndLogCaptured_no_items gw oid store resp hgw hit] at h
      exact absurd h (by simp)
    | some items =>
      rw [fetchAndLogCaptured_items gw oid store resp items hgw hit] at h
      simp only [Except.ok.injEq] at h
      subst h
      exact insertCapturedItems_extends items store

/-- `sweepOrders` unfolds one loop iteration at a time. -/
lemma sweepOrders_cons (gw : Gateway) (o : String) (rest : List String) (s : SweepState) :
    sweepOrders gw (o :: rest) s = sweepOrders gw rest (sweepStep gw s o) :=
  rfl

/-- A successful iteration stores the returned webhook list, logging nothing. -/
lemma sweepStep_ok (gw : Gateway) (s : SweepState) (oid : String)
    (store : List WebhookLog) (h : fetchAndLogCaptured gw oid s.1 = Except.ok store) :
    sweepStep gw s oid = (store, s.2) := by
  unfold sweepStep
  rw [h]

/-- A raising iteration leaves the webhook store unchanged and appends an
error log naming that order. -/
lemma sweepStep_err (gw : Gateway) (s : SweepState) (oid : String)
    (e : String) (h : fetchAndLogCaptured gw oid s.1 = Except.error e) :
    sweepStep gw s oid = (s.1, s.2 ++ [captureErrLog oid]) := by
  unfold sweepStep
  rw [h]

/-- One sweep iteration only ever appends to the webhook store. -/
lemma sweepStep_extends (gw : Gateway) (s : SweepState) (oid : String) :
    ∃ t, (sweepStep gw s oid).1 = s.1 ++ t := by
  cases hf : fetchAndLogCaptured gw oid s.1 with
  | error e => rw [sweepStep_err gw s oid e hf]; exact ⟨[], by simp⟩
  | ok store =>
    rw [sweepStep_ok gw s oid store hf]
    exact fetchAndLogCaptured_ok_extends gw oid s.1 store hf

/-- The sweep loop only ever appends to the webhook store. -/
lemma sweepOrders_extends (gw : Gateway) (orders : List String) (s : SweepState) :
    ∃ t, (sweepOrders gw orders s).1 = s.1 ++ t := by
  induction orders generalizing s with
  | nil => exact ⟨[], by simp [sweepOrders]⟩
  | cons o rest ih =>
    rw [sweepOrders_cons]
    obtain ⟨t₁, ht₁⟩ := sweepStep_extends gw s o
    obtain ⟨t₂, ht₂⟩ := ih (sweepStep gw s o)
    exact ⟨t₁ ++ t₂, by rw [ht₂, ht₁, List.append_assoc]⟩

/-- The error-log component accumulates: running the loop with an initial log
list `l` yields `l` followed by the entries the loop itself produces, and the
webhook component does not depend on `l`. -/
lemma sweepOrders_log_accum (gw : Gateway) (orders : List String)
    (w : List WebhookLog) (l : List ErrorLog) :
    sweepOrders gw orders (w, l)
      = ((sweepOrders gw orders (w, [])).1, l ++ (sweepOrders gw orders (w, [])).2) := by
  induction orders generalizing w l with
  | nil => simp [sweepOrders]
  | cons o rest ih =>
    rw [sweepOrders_cons, sweepOrders_cons]
    cases hf : fetchAndLogCaptured gw o w with
    | ok store =>
      rw [sweepStep_ok gw (w, l) o store hf, sweepStep_ok gw (w, []) o store hf,
        ih store l]
    | error e =>
      rw [sweepStep_err gw (w, l) o e hf, sweepStep_err gw (w, []) o e hf]
      dsimp only
      rw [ih w (l ++ [captureErrLog o]), ih w ([] ++ [captureErrLog o])]
      simp

/-- `fetchAndLogCaptured` raises on every failing order. -/
lemma fetchAndLogCaptured_err_of_orderFails (gw : Gateway) (oid : String)
    (store : List WebhookLog) (h : orderFails gw oid = true) :
    ∃ e, fetchAndLogCaptured gw oid store = Except.error e := by
  unfold orderFails at h
  cases hgw : gw oid with
  | error e => exact ⟨e, fetchAndLogCaptured_gw_err gw oid store e hgw⟩
  | ok resp =>
    rw [hgw] at h
    cases hit : resp.items with
    | none =>
      exact ⟨"TypeError: NoneType object is not iterable",
        fetchAndLogCaptured_no_items gw oid store resp hgw hit⟩
    | some items =>
      dsimp only at h
      rw [hit] at h
      exact absurd h (by simp)

/-- A name absent from the store has zero stored documents. -/
lemma countName_eq_zero (store : List WebhookLog) (n : String)
    (h : hasName store n = false) : countName store n = 0 := by
  induction store with
  | nil => rfl
  | cons a rest ih =>
    simp only [hasName, List.any_cons, Bool.or_eq_false_iff] at h
    obtain ⟨h₁, h₂⟩ := h
    simp only [countName, List.filter_cons]
    rw [if_neg (by simpa using h₁)]
    exact ih h₂

/-- The sweep loop splits over list concatenation. -/
lemma sweepOrders_append (gw : Gateway) (a b : List String) (s : SweepState) :
    sweepOrders gw (a ++ b) s = sweepOrders gw b (sweepOrders gw a s) :=
  List.foldl_append (sweepStep gw) s a b

/-- One sweep iteration only looks at the gateway's answer for its own order. -/
lemma sweepStep_congr (gw gw' : Gateway) (s : SweepState) (oid : String)
    (h : gw oid = gw' oid) : sweepStep gw s oid = sweepStep gw' s oid := by
  unfold sweepStep fetchAndLogCaptured
  rw [h]

/-- The sweep loop only queries the gateway at the listed order ids: two
gateways agreeing on those ids produce identical runs. -/
lemma sweepOrders_congr (gw gw' : Gateway) (orders : List String) (s : SweepState)
    (h : ∀ o ∈ orders, gw o = gw' o) :
    sweepOrders gw orders s = sweepOrders gw' orders s := by
  induction orders generalizing s with
  | nil => rfl
  | cons o rest ih =>
    rw [sweepOrders_cons, sweepOrders_cons,
      sweepStep_congr gw gw' s o (h o (List.mem_cons_self o rest))]
    exact ih (sweepStep gw' s o) (fun o' ho' => h o' (List.mem_cons_of_mem o ho'))

/-! Claim theorems. -/

/-- Claim C1: for every gateway payment processed by the Prepaid Credits
capture handler, the created invoice satisfies total = amount_due =
(gross cents)/100 − gst and amount_paid = amount_due_with_tax =
(gross cents)/100, where gst is the notes.gst value and defaults to 0 when
absent; in particular gross=10000 with notes.gst=18 yields total 82 and
amount_paid 100. -/
theorem prepaid_credits_invoice_amounts :
    (∀ (r : RazorpayPaymentRecord) (p : Payment),
      ∃ inv : Invoice, (process_prepaid_credits r p).invoices = [inv] ∧
        inv.total = (p.amount : ℚ) / 100 - gstOf p ∧
        inv.amount_due = inv.total ∧
        inv.amount_paid = (p.amount : ℚ) / 100 ∧
        inv.amount_due_with_tax = inv.amount_paid) ∧
    (∀ p : Payment, gstOf { p with gstNote := none } = 0) ∧
    (∃ inv : Invoice,
      (process_prepaid_credits exampleRecord examplePayment).invoices = [inv] ∧
      inv.total = 82 ∧ inv.amount_due = 82 ∧ inv.amount_paid = 100 ∧
      inv.amount_due_with_tax = 100) := by
  refine ⟨fun r p => ⟨_, rfl, rfl, rfl, rfl, rfl⟩, fun p => rfl,
    ⟨_, rfl, ?_, ?_, ?_, ?_⟩⟩ <;>
    norm_num [process_prepaid_credits, amountWithTax, gstOf, examplePayment]

/-- Claim C8: the Partnership Fee branch performs the identical amount
computation as Prepaid Credits but tags the credit allocation with a
distinguishing type and creates an invoice of type "Partnership Fees",
enqueueing nothing; the Prepaid Credits branch enqueues exactly one task, and
each branch produces one ledger mutation and one invoice. -/
theorem partnership_fee_branch_shape :
    ∀ (r : RazorpayPaymentRecord) (p : Payment),
      ∃ (bt bt' : BalanceTransaction) (inv inv' : Invoice) (task : String),
        process_partnership_fee r p
            = { allocations := [bt], invoices := [inv], enqueued := [] } ∧
        process_prepaid_credits r p
            = { allocations := [bt'], invoices := [inv'], enqueued := [task] } ∧
        bt.amount = bt'.amount ∧
        bt.amount = netAmount p ∧
        inv.total = inv'.total ∧
        inv.amount_due = inv'.amount_due ∧
        inv.amount_paid = inv'.amount_paid ∧
        inv.gst = inv'.gst ∧
        bt.btType = some "Partnership Fee" ∧
        bt'.btType = none ∧
        inv.invType = "Partnership Fees" ∧
        inv'.invType = "Prepaid Credits" := by
  intro r p
  exact ⟨_, _, _, _, _, rfl, rfl, rfl, rfl, rfl, rfl, rfl, rfl, rfl, rfl, rfl, rfl⟩

/-- Claim C10: the capture handlers do not validate the tax note against the
gross amount: on a payload whose notes.gst exceeds amount/100 the computed
net amount is negative and is passed unchanged to the credit allocation and
used as the invoice total and amount_due, in both branches. -/
theorem negative_net_amount_unvalidated :
    gstOf overTaxedPayment > amountWithTax overTaxedPayment ∧
    netAmount overTaxedPayment < 0 ∧
    (∃ bt inv,
      (process_prepaid_credits exampleRecord overTaxedPayment).allocations = [bt] ∧
      (process_prepaid_credits exampleRecord overTaxedPayment).invoices = [inv] ∧
      bt.amount = netAmount overTaxedPayment ∧
      inv.total = netAmount overTaxedPayment ∧
      inv.amount_due = netAmount overTaxedPayment) ∧
    (∃ bt inv,
      (process_partnership_fee exampleRecord overTaxedPayment).allocations = [bt] ∧
      (process_partnership_fee exampleRecord overTaxedPayment).invoices = [inv] ∧
      bt.amount = netAmount overTaxedPayment ∧
      inv.total = netAmount overTaxedPayment ∧
      inv.amount_due = netAmount overTaxedPayment) := by
  refine ⟨?_, ?_, ⟨_, _, rfl, rfl, rfl, rfl, rfl⟩,
    ⟨_, _, rfl, rfl, rfl, rfl, rfl⟩⟩ <;>
    norm_num [netAmount, amountWithTax, gstOf, overTaxedPayment]

/-- Claim C2: webhook-log insertion (the construct shared by sync and the
pending-order sweep) is idempotent in the order id used as the document name:
inserting when an entry with that name exists is a no-op, a double insert
equals a single insert, and inserting twice into a store without the name
yields exactly one stored entry for it. -/
theorem webhook_insert_idempotent :
    ∀ (store : List WebhookLog) (w : WebhookLog),
      (hasName store w.name = true → insertIgnoreDuplicate store w = store) ∧
      insertIgnoreDuplicate (insertIgnoreDuplicate store w) w
          = insertIgnoreDuplicate store w ∧
      (hasName store w.name = false →
        countName (insertIgnoreDuplicate (insertIgnoreDuplicate store w) w) w.name = 1) := by
  intro store w
  have hafter : hasName (store ++ [w]) w.name = true := by
    simp [hasName]
  refine ⟨fun h => by simp [insertIgnoreDuplicate, h], ?_, fun h => ?_⟩
  · by_cases h : hasName store w.name = true
    · simp [insertIgnoreDuplicate, h]
    · have h' : hasName store w.name = false := by simpa using h
      simp [insertIgnoreDuplicate, h', hafter]
  · simp only [insertIgnoreDuplicate, h, Bool.false_eq_true, if_false, hafter, if_true]
    simp [countName, List.filter_append, countName_eq_zero store w.name h]
    simpa [countName] using countName_eq_zero store w.name h

/-- Claim C2 witness: on a concrete store the second insert of the same order
id is a no-op and a double insert into the empty store leaves one entry. -/
theorem webhook_insert_idempotent_witness :
    insertIgnoreDuplicate [mkWebhookLog sampleItem] (mkWebhookLog sampleItem)
        = [mkWebhookLog sampleItem] ∧
    countName
        (insertIgnoreDuplicate (insertIgnoreDuplicate [] (mkWebhookLog sampleItem))
          (mkWebhookLog sampleItem))
        (mkWebhookLog sampleItem).name = 1 :=
  ⟨(webhook_insert_idempotent [mkWebhookLog sampleItem] (mkWebhookLog sampleItem)).1
      (by decide),
   (webhook_insert_idempotent [] (mkWebhookLog sampleItem)).2.2 (by decide)⟩

/-- Claim C3: in the reboot driver, once the initial prompt has been seen,
the run succeeds exactly when "login:" reappears within the final 300s wait;
absence of the "sysrq: HELP" and "sysrq: Resetting" banners is tolerated and
the scripted sequence still runs to completion, while a missing final login
prompt makes the operation raise — the only hard failure condition after the
initial prompt. -/
theorem reboot_final_login_only_hard_failure :
    ∀ t : ConsoleTrace, t.initialPrompt = true →
      ((∃ acts, runRebootScript t = Except.ok acts) ↔ t.finalLogin = true) ∧
      (t.finalLogin = true →
        runRebootScript t
          = Except.ok (["spawn", "sendline", "expect login:|Password:"]
              ++ sysrqSequence t.helpBanner t.resetBanner
              ++ ["expect login: matched"])) ∧
      (t.finalLogin = false →
        runRebootScript t = Except.error "pexpect TIMEOUT: login: not seen within 300s") ∧
      (sysrqSequence t.helpBanner t.resetBanner).length
          = (sysrqSequence true true).length := by
  intro t h
  obtain ⟨ip, hb, rb, fl⟩ := t
  simp only at h
  subst h
  cases fl <;> cases hb <;> cases rb <;>
    simp [runRebootScript, sysrqSequence, bannerOutcome]

/-- Claim C3 witness: with both banners absent but the final login prompt
seen, the run completes with the full scripted sequence. -/
theorem reboot_final_login_witness :
    runRebootScript ⟨true, false, false, true⟩
      = Except.ok (["spawn", "sendline", "expect login:|Password:"]
          ++ sysrqSequence false false ++ ["expect login: matched"]) :=
  (reboot_final_login_only_hard_failure ⟨true, false, false, true⟩ rfl).2.1 rfl

/-- Claim C4: the sweep's selection is exactly the records with status
Pending and creation at or after now − threshold (threshold in hours,
default 12): every such record's order id is selected, a record violating
the filter (and not sharing its order id with another record) is never
selected, and the sweep queries the gateway only at the selected order ids —
two gateways agreeing there produce identical sweeps. -/
theorem sweep_selection_characterization :
    hoursDefault = 12 ∧
    (∀ (db : DB) (now hours : ℤ) (r : RazorpayPaymentRecord),
      r ∈ db.paymentRecords →
      r.status = PRStatus.Pending →
      now - hours * 3600 ≤ r.creation →
      r.orderId ∈ pendingOrderIds db now hours) ∧
    (∀ (db : DB) (now hours : ℤ) (r : RazorpayPaymentRecord),
      r ∈ db.paymentRecords →
      (∀ r' ∈ db.paymentRecords, r'.orderId = r.orderId → r' = r) →
      ¬(r.status = PRStatus.Pending ∧ now - hours * 3600 ≤ r.creation) →
      r.orderId ∉ pendingOrderIds db now hours) ∧
    (∀ (gw gw' : Gateway) (db : DB) (now hours : ℤ),
      (∀ oid ∈ pendingOrderIds db now hours, gw oid = gw' oid) →
      fetch_pending_payment_orders gw db now hours
        = fetch_pending_payment_orders gw' db now hours) := by
  refine ⟨rfl, ?_, ?_, ?_⟩
  · intro db now hours r hmem hs hc
    unfold pendingOrderIds
    refine List.mem_map.mpr ⟨r, List.mem_filter.mpr ⟨hmem, ?_⟩, rfl⟩
    simp [inPendingWindow, hs, hc]
  · intro db now hours r hmem huniq hnot hin
    unfold pendingOrderIds at hin
    obtain ⟨r', hr', heq⟩ := List.mem_map.mp hin
    obtain ⟨hr'mem, hr'win⟩ := List.mem_filter.mp hr'
    cases huniq r' hr'mem heq
    apply hnot
    simpa [inPendingWindow] using hr'win
  · intro gw gw' db now hours h
    unfold fetch_pending_payment_orders
    dsimp only
    rw [sweepOrders_congr gw gw' (pendingOrderIds db now hours) (db.webhookLogs, []) h]

/-- Claim C4 witness: at a concrete instant, the recent Pending record is
selected and the out-of-window one is not. -/
theorem sweep_selection_characterization_witness :
    lateRecord.orderId ∈ pendingOrderIds windowDB 1000000 12 ∧
    oldRecord.orderId ∉ pendingOrderIds windowDB 1000000 12 :=
  ⟨sweep_selection_characterization.2.1 windowDB 1000000 12 lateRecord
      (by decide) (by decide) (by decide),
   sweep_selection_characterization.2.2.1 windowDB 1000000 12 oldRecord
      (by decide) (by decide) (by decide)⟩

/-- Claim C5 is false on the code: the sweep selects the records created at
or after now − threshold, so a record created at the reference instant itself
(not earlier than now − threshold) still has its order payments fetched. -/
theorem sweep_overdue_counterexample :
    ¬ (∀ (db : DB) (now : ℤ) (r : RazorpayPaymentRecord),
        r ∈ db.paymentRecords →
        r.orderId ∈ pendingOrderIds db now hoursDefault →
        r.creation < now - hoursDefault * 3600) := by
  intro h
  have hlt := h lateDB 1000000 lateRecord (by decide) (by decide)
  rw [show lateRecord.creation = 1000000 from rfl] at hlt
  rw [show hoursDefault = 12 from rfl] at hlt
  exact absurd hlt (by decide)

/-- Claim C5 (amended): every order the sweep fetches belongs to a record
with status Pending whose creation time is at or after now − threshold. -/
theorem sweep_orders_from_window :
    ∀ (db : DB) (now hours : ℤ) (oid : String),
      oid ∈ pendingOrderIds db now hours →
      ∃ r, r ∈ db.paymentRecords ∧ r.orderId = oid ∧
        r.status = PRStatus.Pending ∧ now - hours * 3600 ≤ r.creation := by
  intro db now hours oid hin
  unfold pendingOrderIds at hin
  obtain ⟨r, hr, rfl⟩ := List.mem_map.mp hin
  obtain ⟨hmem, hwin⟩ := List.mem_filter.mp hr
  have hw : r.status = PRStatus.Pending ∧ now - hours * 3600 ≤ r.creation := by
    simpa [inPendingWindow] using hwin
  exact ⟨r, hmem, rfl, hw.1, hw.2⟩

/-- Claim C5 (amended) witness: the order fetched at the concrete instant
comes from a Pending record created within the window. -/
theorem sweep_orders_from_window_witness :
    ∃ r, r ∈ lateDB.paymentRecords ∧ r.orderId = "order_late" ∧
      r.status = PRStatus.Pending ∧ (1000000 : ℤ) - 12 * 3600 ≤ r.creation :=
  sweep_orders_from_window lateDB 1000000 12 "order_late" (by decide)

/-- Claim C6: `sync` never raises to its caller — for every gateway and
store it returns normally, and whenever its try-block body raises, the
result is the unchanged store plus one error log naming the record's order
id. -/
theorem sync_never_raises :
    ∀ (gw : Gateway) (r : RazorpayPaymentRecord) (db : DB),
      (∃ out, sync gw r db = Except.ok out) ∧
      (∀ e, fetchAndLogCaptured gw r.orderId db.webhookLogs = Except.error e →
        sync gw r db = Except.ok (db, [syncErrLog r.orderId])) := by
  intro gw r db
  constructor
  · unfold sync
    cases h : fetchAndLogCaptured gw r.orderId db.webhookLogs with
    | ok store => exact ⟨_, rfl⟩
    | error e => exact ⟨_, rfl⟩
  · intro e he
    unfold sync
    rw [he]

/-- Claim C6 witness: on a gateway whose every call raises, `sync` returns
normally with the unchanged store and one contextual error log. -/
theorem sync_never_raises_witness :
    sync failingGw lateRecord lateDB
      = Except.ok (lateDB, [syncErrLog lateRecord.orderId]) :=
  (sync_never_raises failingGw lateRecord lateDB).2 "ConnectionError"
    (fetchAndLogCaptured_gw_err failingGw lateRecord.orderId lateDB.webhookLogs
      "ConnectionError" rfl)

/-- Claim C7: sweep failures are isolated per order — when one order's
processing raises, the webhook store ends up exactly as if the failing order
had not been in the list, and the error log gains exactly one entry naming
that order, placed between the logs of the preceding and following orders. -/
theorem sweep_isolates_order_failures :
    ∀ (gw : Gateway) (pre post : List String) (o : String) (init : SweepState),
      orderFails gw o = true →
      (sweepOrders gw (pre ++ o :: post) init).1
          = (sweepOrders gw (pre ++ post) init).1 ∧
      ∃ tail,
        (sweepOrders gw (pre ++ o :: post) init).2
          = (sweepOrders gw pre init).2 ++ captureErrLog o :: tail ∧
        (sweepOrders gw (pre ++ post) init).2 = (sweepOrders gw pre init).2 ++ tail := by
  intro gw pre post o init hfail
  rcases hpre : sweepOrders gw pre init with ⟨w₁, l₁⟩
  obtain ⟨e, he⟩ := fetchAndLogCaptured_err_of_orderFails gw o w₁ hfail
  have h1 : sweepOrders gw (pre ++ o :: post) init
      = sweepOrders gw post (w₁, l₁ ++ [captureErrLog o]) := by
    rw [sweepOrders_append, hpre, sweepOrders_cons, sweepStep_err gw (w₁, l₁) o e he]
  have h2 : sweepOrders gw (pre ++ post) init = sweepOrders gw post (w₁, l₁) := by
    rw [sweepOrders_append, hpre]
  constructor
  · rw [h1, h2, sweepOrders_log_accum gw post w₁ (l₁ ++ [captureErrLog o]),
      sweepOrders_log_accum gw post w₁ l₁]
  · refine ⟨(sweepOrders gw post (w₁, [])).2, ?_, ?_⟩
    · rw [h1, sweepOrders_log_accum gw post w₁ (l₁ ++ [captureErrLog o])]
      simp
    · rw [h2, sweepOrders_log_accum gw post w₁ l₁]

/-- Claim C7 witness: with a concrete gateway failing on one order of three,
the other two orders are processed as if the failing one were absent. -/
theorem sweep_isolates_order_failures_witness :
    (sweepOrders flakyGw (["order_a"] ++ "order_bad" :: ["order_c"]) ([], [])).1
        = (sweepOrders flakyGw (["order_a"] ++ ["order_c"]) ([], [])).1 ∧
    ∃ tail,
      (sweepOrders flakyGw (["order_a"] ++ "order_bad" :: ["order_c"]) ([], [])).2
        = (sweepOrders flakyGw ["order_a"] ([], [])).2 ++ captureErrLog "order_bad" :: tail ∧
      (sweepOrders flakyGw (["order_a"] ++ ["order_c"]) ([], [])).2
        = (sweepOrders flakyGw ["order_a"] ([], [])).2 ++ tail :=
  sweep_isolates_order_failures flakyGw ["order_a"] ["order_c"] "order_bad" ([], [])
    (by decide)

/-- Claim C9: neither `sync` nor the sweep modifies any payment record or
invoice — the only store change either makes is appending webhook-log
documents. -/
theorem sync_sweep_frame_conditions :
    ∀ (gw : Gateway) (r : RazorpayPaymentRecord) (db : DB) (now hours : ℤ),
      (∃ db' logs, sync gw r db = Except.ok (db', logs) ∧
        db'.paymentRecords = db.paymentRecords ∧
        db'.invoices = db.invoices ∧
        ∃ t, db'.webhookLogs = db.webhookLogs ++ t) ∧
      ((fetch_pending_payment_orders gw db now hours).1.paymentRecords
          = db.paymentRecords ∧
        (fetch_pending_payment_orders gw db now hours).1.invoices = db.invoices ∧
        ∃ t, (fetch_pending_payment_orders gw db now hours).1.webhookLogs
            = db.webhookLogs ++ t) := by
  intro gw r db now hours
  constructor
  · unfold sync
    cases h : fetchAndLogCaptured gw r.orderId db.webhookLogs with
    | ok store =>
      exact ⟨_, _, rfl, rfl, rfl,
        fetchAndLogCaptured_ok_extends gw r.orderId db.webhookLogs store h⟩
    | error e =>
      exact ⟨_, _, rfl, rfl, rfl, ⟨[], by simp⟩⟩
  · unfold fetch_pending_payment_orders
    exact ⟨rfl, rfl,
      sweepOrders_extends gw (pendingOrderIds db now hours) (db.webhookLogs, [])⟩

end Press
